import Mathlib

/-!
Shallow embedding of `pyinfra/api/host.py` (classes `HostFacts` and `Host`).

Python values that matter here (connection handles, run-state, fact data)
are modelled by the type `Value`, with Python truthiness as `Value.truthy`.
Exceptions are modelled by `Except PyErr`.  The executor (connector) and the
facts module are external collaborators: they are modelled as records of
functions, universally quantified over in the theorems, and every call out
to them (plus every `logger` line) is recorded in an ordered `Event` trace,
so that "no connection attempt" and "exactly one log line" are statable.
Each method returns the updated `Host` (the only mutable state at this
layer is `Host.connection`), the result or raised exception, and the trace.
-/

/-- A Python value as far as this layer observes it: `vNone` is `None`;
strings, integers and booleans cover the handles and data used here. -/
inductive Value
  | vNone
  | vStr (s : String)
  | vInt (n : Int)
  | vBool (b : Bool)
deriving Repr, DecidableEq

/-- Python truthiness of a `Value` (`None`, `""`, `0`, `False` are falsy). -/
def Value.truthy : Value → Bool
  | Value.vNone => false
  | Value.vStr s => !(s == "")
  | Value.vInt n => !(n == 0)
  | Value.vBool b => b

/-- The exceptions this layer can raise: `TypeError` from `_check_state` /
`_check_host`, `AttributeError` for an unknown fact, `PyinfraError` for a
fact read with no connection, and `IndexError` from `e.args[0]` when a
`ConnectError` carries no arguments. -/
inductive PyErr
  | typeError (msg : String)
  | attributeError (msg : String)
  | pyinfraError (msg : String)
  | indexError
deriving Repr, DecidableEq

/-- Outcome of one call to `executor.connect(state, host)`: either a returned
handle, or a raised `ConnectError` carrying its `args` tuple. -/
inductive ConnectOutcome
  | success (handle : Value)
  | failure (args : List String)
deriving Repr, DecidableEq

/-- Observable events: calls out to the executor (connector), calls out to
the facts module, and log lines (`logger.info` / `logger.error`). -/
inductive Event
  | execConnect (state : Value) (host : String)
  | execDisconnect (state : Value) (host : String)
  | execRun (state : Value) (host : String) (args : List Value)
      (kwargs : List (String × Value))
  | execPut (state : Value) (host : String) (args : List Value)
      (kwargs : List (String × Value))
  | execGet (state : Value) (host : String) (args : List Value)
      (kwargs : List (String × Value))
  | factsGet (state : Value) (host : String) (key : String)
  | factsCreate (state : Value) (host : String) (key : String)
      (data : Value) (args : Value)
  | factsDelete (state : Value) (host : String) (key : String) (args : Value)
  | logInfo (line : String)
  | logError (line : String)
deriving Repr, DecidableEq

/-- Is this event a `logger.info` line? -/
def Event.isLogInfo : Event → Bool
  | Event.logInfo _ => true
  | _ => false

/-- Is this event a `logger.error` line? -/
def Event.isLogError : Event → Bool
  | Event.logError _ => true
  | _ => false

/-- Is this event a connector connect attempt? -/
def Event.isExecConnect : Event → Bool
  | Event.execConnect _ _ => true
  | _ => false

/-- The execution connector assigned to a host (`self.executor`).  `connect`
is a function of the `(state, host)` pair it is handed; `disconnect` is an
optional capability, matching `getattr(self.executor, 'disconnect', None)`;
the three dispatch operations receive `(state, host, *args, **kwargs)` and
return a result value. -/
structure Executor where
  connect : Value → String → ConnectOutcome
  disconnect : Option (Value → String → Value)
  run_shell_command : Value → String → List Value → List (String × Value) → Value
  put_file : Value → String → List Value → List (String × Value) → Value
  get_file : Value → String → List Value → List (String × Value) → Value

/-- The functions imported from `pyinfra.api.facts`: the process-wide fact
registry and cache, external to `host.py` and treated as an opaque
collaborator here. -/
structure FactsModule where
  is_fact : String → Bool
  get_host_fact : Value → String → String → Value
  create_host_fact : Value → String → String → Value → Value → Value
  delete_host_fact : Value → String → String → Value → Value

/-- One target host: `name`, run-`state` (class attribute `None` until the
orchestrator assigns it), the `connection` handle (class attribute `None`
until a successful connect stores one), and the assigned `executor`.
`inventory`, `groups`, `data` and `connector_data` play no role in the
claims below and are omitted. -/
structure Host where
  name : String
  state : Value
  connection : Value
  executor : Executor

/-- The message of the `TypeError` raised by `Host._check_state`. -/
def checkStateMsg : String := "Cannot call this function with no state!"

/-- The message of the `TypeError` raised by `HostFacts._check_host`. -/
def checkHostMsg : String := "Cannot call this function with no host!"

/-- ANSI reset, as produced by `click.style('')`. -/
def ansiReset : String := "\x1b[0m"

/-- `click.style(s, bold=True)`. -/
def styleBold (s : String) : String := "\x1b[1m" ++ s ++ ansiReset

/-- `click.style(s, 'red')`. -/
def styleRed (s : String) : String := "\x1b[31m" ++ s ++ ansiReset

/-- `click.style(s, 'green')`. -/
def styleGreen (s : String) : String := "\x1b[32m" ++ s ++ ansiReset

/-- `Host.print_prefix`: `'{0}[{1}] '.format(click.style(''), click.style(name, bold=True))`.
Note the host name sits inside the square brackets. -/
def printPrefixStr (name : String) : String :=
  ansiReset ++ "[" ++ styleBold name ++ "] "

/-- The `logger.error` line emitted when a reported `ConnectError` carries
reason `reason`: `print_prefix + click.style(e.args[0], 'red')`. -/
def connectErrMsg (name reason : String) : String :=
  printPrefixStr name ++ styleRed reason

/-- The `logger.info` line emitted on a successful connect:
`print_prefix + click.style('Connected', 'green')`, suffixed with
`' (for <key> fact)'` when `for_fact` is a truthy string. -/
def successMsg (name : String) (for_fact : Option String) : String :=
  let base := printPrefixStr name ++ styleGreen "Connected"
  match for_fact with
  | none => base
  | some k => if k == "" then base else base ++ " (for " ++ k ++ " fact)"

/-- `Host.connect(for_fact=None, show_errors=True)`.  Checks run-state, then:
if `self.connection` is truthy, returns it with no connector call and no log;
otherwise calls `executor.connect(state, host)`.  On a raised `ConnectError`,
if `show_errors` the handler reads `e.args[0]` (an `IndexError` when the args
tuple is empty) and logs the red error line; either way the method falls
through to `return self.connection` (still the old falsy value).  On success
it stores the handle, logs the green line, and returns the handle. -/
def Host.connect (h : Host) (for_fact : Option String) (show_errors : Bool) :
    Host × Except PyErr Value × List Event :=
  if h.state.truthy then
    if h.connection.truthy then
      (h, Except.ok h.connection, [])
    else
      match h.executor.connect h.state h.name with
      | ConnectOutcome.success v =>
          ({ h with connection := v }, Except.ok v,
           [Event.execConnect h.state h.name,
            Event.logInfo (successMsg h.name for_fact)])
      | ConnectOutcome.failure args =>
          if show_errors then
            match args with
            | [] => (h, Except.error PyErr.indexError,
                     [Event.execConnect h.state h.name])
            | reason :: _ =>
                (h, Except.ok h.connection,
                 [Event.execConnect h.state h.name,
                  Event.logError (connectErrMsg h.name reason)])
          else
            (h, Except.ok h.connection, [Event.execConnect h.state h.name])
  else (h, Except.error (PyErr.typeError checkStateMsg), [])

/-- `Host.disconnect()`: checks run-state, then calls the executor's
optional `disconnect(state, host)` if present, returning its result;
with no such capability it returns `None`.  The `connection` field is
not touched. -/
def Host.disconnect (h : Host) : Host × Except PyErr Value × List Event :=
  if h.state.truthy then
    match h.executor.disconnect with
    | some f => (h, Except.ok (f h.state h.name),
                 [Event.execDisconnect h.state h.name])
    | none => (h, Except.ok Value.vNone, [])
  else (h, Except.error (PyErr.typeError checkStateMsg), [])

/-- `Host.run_shell_command(*args, **kwargs)`: checks run-state, then
delegates verbatim to `executor.run_shell_command(state, host, *args, **kwargs)`. -/
def Host.run_shell_command (h : Host) (args : List Value)
    (kwargs : List (String × Value)) : Host × Except PyErr Value × List Event :=
  if h.state.truthy then
    (h, Except.ok (h.executor.run_shell_command h.state h.name args kwargs),
     [Event.execRun h.state h.name args kwargs])
  else (h, Except.error (PyErr.typeError checkStateMsg), [])

/-- `Host.put_file(*args, **kwargs)`: checks run-state, then delegates
verbatim to `executor.put_file(state, host, *args, **kwargs)`. -/
def Host.put_file (h : Host) (args : List Value)
    (kwargs : List (String × Value)) : Host × Except PyErr Value × List Event :=
  if h.state.truthy then
    (h, Except.ok (h.executor.put_file h.state h.name args kwargs),
     [Event.execPut h.state h.name args kwargs])
  else (h, Except.error (PyErr.typeError checkStateMsg), [])

/-- `Host.get_file(*args, **kwargs)`: checks run-state, then delegates
verbatim to `executor.get_file(state, host, *args, **kwargs)`. -/
def Host.get_file (h : Host) (args : List Value)
    (kwargs : List (String × Value)) : Host × Except PyErr Value × List Event :=
  if h.state.truthy then
    (h, Except.ok (h.executor.get_file h.state h.name args kwargs),
     [Event.execGet h.state h.name args kwargs])
  else (h, Except.error (PyErr.typeError checkStateMsg), [])

/-- The fact facade `HostFacts`: holds the owning host, or `None` for the
class-level placeholder instance. -/
structure HostFacts where
  host : Option Host

/-- `HostFacts.__getattr__(key)`: checks the host binding, then the fact
registry (`is_fact`), then ensures a connection via
`host.connect(for_fact=key)` (error reporting on by default); a falsy
connection raises `PyinfraError`, otherwise the read delegates to
`get_host_fact(host.state, host, key)`. -/
def HostFacts.getattr (facts : FactsModule) (f : HostFacts) (key : String) :
    HostFacts × Except PyErr Value × List Event :=
  match f.host with
  | none => (f, Except.error (PyErr.typeError checkHostMsg), [])
  | some h =>
    if facts.is_fact key then
      match Host.connect h (some key) true with
      | (h1, Except.error e, ev) => (⟨some h1⟩, Except.error e, ev)
      | (h1, Except.ok conn, ev) =>
          if conn.truthy then
            (⟨some h1⟩, Except.ok (facts.get_host_fact h1.state h1.name key),
             ev ++ [Event.factsGet h1.state h1.name key])
          else
            (⟨some h1⟩,
             Except.error (PyErr.pyinfraError
               ("Could not connect to " ++ h1.name ++ " for fact " ++ key ++ "!")),
             ev)
    else (f, Except.error (PyErr.attributeError ("No such fact: " ++ key)), [])

/-- `HostFacts._create(key, data=None, args=None)`: checks only the host
binding, then delegates to `create_host_fact(host.state, host, key, data, args)` —
the run-state is passed along unchecked. -/
def HostFacts.create (facts : FactsModule) (f : HostFacts) (key : String)
    (data args : Value) : HostFacts × Except PyErr Value × List Event :=
  match f.host with
  | none => (f, Except.error (PyErr.typeError checkHostMsg), [])
  | some h =>
    (f, Except.ok (facts.create_host_fact h.state h.name key data args),
     [Event.factsCreate h.state h.name key data args])

/-- `HostFacts._delete(key, args=None)`: checks only the host binding, then
delegates to `delete_host_fact(host.state, host, key, args)` — the run-state
is passed along unchecked. -/
def HostFacts.delete (facts : FactsModule) (f : HostFacts) (key : String)
    (args : Value) : HostFacts × Except PyErr Value × List Event :=
  match f.host with
  | none => (f, Except.error (PyErr.typeError checkHostMsg), [])
  | some h =>
    (f, Except.ok (facts.delete_host_fact h.state h.name key args),
     [Event.factsDelete h.state h.name key args])

/-! ### Concrete scenarios used by witnesses and counterexamples -/

/-- A connector that always succeeds with handle `"h1"` and implements the
optional disconnect capability. -/
def exeOk : Executor :=
  { connect := fun _ _ => ConnectOutcome.success (Value.vStr "h1")
    disconnect := some fun _ _ => Value.vNone
    run_shell_command := fun _ _ _ _ => Value.vStr "ran"
    put_file := fun _ _ _ _ => Value.vBool true
    get_file := fun _ _ _ _ => Value.vBool true }

/-- A connector that always raises `ConnectError('timeout')` and has no
disconnect capability. -/
def exeFail : Executor :=
  { connect := fun _ _ => ConnectOutcome.failure ["timeout"]
    disconnect := none
    run_shell_command := fun _ _ _ _ => Value.vNone
    put_file := fun _ _ _ _ => Value.vNone
    get_file := fun _ _ _ _ => Value.vNone }

/-- A connector that raises a `ConnectError` with an empty args tuple. -/
def exeFailEmpty : Executor :=
  { connect := fun _ _ => ConnectOutcome.failure []
    disconnect := none
    run_shell_command := fun _ _ _ _ => Value.vNone
    put_file := fun _ _ _ _ => Value.vNone
    get_file := fun _ _ _ _ => Value.vNone }

/-- A connector whose connect returns `None` without raising. -/
def exeFalsy : Executor :=
  { connect := fun _ _ => ConnectOutcome.success Value.vNone
    disconnect := none
    run_shell_command := fun _ _ _ _ => Value.vNone
    put_file := fun _ _ _ _ => Value.vNone
    get_file := fun _ _ _ _ => Value.vNone }

/-- Run-state bound, not yet connected, reachable connector. -/
def hostWeb1 : Host :=
  { name := "web1", state := Value.vStr "S", connection := Value.vNone
    executor := exeOk }

/-- Run-state bound, not yet connected, connector always times out. -/
def hostWeb2 : Host :=
  { name := "web2", state := Value.vStr "S", connection := Value.vNone
    executor := exeFail }

/-- Run-state bound, not yet connected, connector raises an argless error. -/
def hostWeb4 : Host :=
  { name := "web4", state := Value.vStr "S", connection := Value.vNone
    executor := exeFailEmpty }

/-- Run-state bound, not yet connected, connector returns a falsy handle. -/
def hostWeb5 : Host :=
  { name := "web5", state := Value.vStr "S", connection := Value.vNone
    executor := exeFalsy }

/-- Run-state bound and already holding live connection handle `"h1"`. -/
def hostConnected : Host :=
  { name := "web1c", state := Value.vStr "S", connection := Value.vStr "h1"
    executor := exeOk }

/-- A host whose run-state was never assigned (`state is None`). -/
def hostNoState : Host :=
  { name := "web0", state := Value.vNone, connection := Value.vNone
    executor := exeOk }

/-- A facts module with exactly one registered fact, `"os_version"`. -/
def factsStub : FactsModule :=
  { is_fact := fun k => k == "os_version"
    get_host_fact := fun _ _ _ => Value.vStr "linux-6.1"
    create_host_fact := fun _ _ _ _ _ => Value.vStr "created"
    delete_host_fact := fun _ _ _ _ => Value.vStr "deleted" }

/-! ### Branch lemmas for `Host.connect` -/

/-- With no run-state, `connect` raises the `_check_state` `TypeError` and
does nothing else. -/
theorem connect_no_state (h : Host) (ff : Option String) (sh : Bool)
    (hs : h.state.truthy = false) :
    Host.connect h ff sh = (h, Except.error (PyErr.typeError checkStateMsg), []) := by
  simp [Host.connect, hs]

/-- With a truthy stored connection, `connect` returns it with no connector
call and no log line. -/
theorem connect_already (h : Host) (ff : Option String) (sh : Bool)
    (hs : h.state.truthy = true) (hc : h.connection.truthy = true) :
    Host.connect h ff sh = (h, Except.ok h.connection, []) := by
  simp [Host.connect, hs, hc]

/-- With a falsy stored connection and a connector that returns a handle,
`connect` stores the handle, logs the success line, and returns it. -/
theorem connect_success (h : Host) (v : Value) (ff : Option String) (sh : Bool)
    (hs : h.state.truthy = true) (hc : h.connection.truthy = false)
    (ho : h.executor.connect h.state h.name = ConnectOutcome.success v) :
    Host.connect h ff sh =
      ({ h with connection := v }, Except.ok v,
       [Event.execConnect h.state h.name,
        Event.logInfo (successMsg h.name ff)]) := by
  simp [Host.connect, hs, hc, ho]

/-- With a reported `ConnectError` carrying a reason, `connect` logs the red
error line and returns the old (falsy) connection without raising. -/
theorem connect_fail_report (h : Host) (ff : Option String)
    (reason : String) (rest : List String)
    (hs : h.state.truthy = true) (hc : h.connection.truthy = false)
    (ho : h.executor.connect h.state h.name = ConnectOutcome.failure (reason :: rest)) :
    Host.connect h ff true =
      (h, Except.ok h.connection,
       [Event.execConnect h.state h.name,
        Event.logError (connectErrMsg h.name reason)]) := by
  simp [Host.connect, hs, hc, ho]

/-- With `show_errors=False`, a `ConnectError` is swallowed silently: no log
line, old connection returned. -/
theorem connect_fail_silent (h : Host) (ff : Option String) (args : List String)
    (hs : h.state.truthy = true) (hc : h.connection.truthy = false)
    (ho : h.executor.connect h.state h.name = ConnectOutcome.failure args) :
    Host.connect h ff false =
      (h, Except.ok h.connection, [Event.execConnect h.state h.name]) := by
  simp [Host.connect, hs, hc, ho]

/-- With a reported `ConnectError` whose args tuple is empty, the handler's
`e.args[0]` raises `IndexError`. -/
theorem connect_fail_empty (h : Host) (ff : Option String)
    (hs : h.state.truthy = true) (hc : h.connection.truthy = false)
    (ho : h.executor.connect h.state h.name = ConnectOutcome.failure []) :
    Host.connect h ff true =
      (h, Except.error PyErr.indexError, [Event.execConnect h.state h.name]) := by
  simp [Host.connect, hs, hc, ho]

/-- On any `ConnectError`, whatever the reporting flag and args, the host is
returned unchanged (the assignment to `self.connection` never ran). -/
theorem connect_fail_host_eq (h : Host) (ff : Option String) (sh : Bool)
    (args : List String)
    (hs : h.state.truthy = true) (hc : h.connection.truthy = false)
    (ho : h.executor.connect h.state h.name = ConnectOutcome.failure args) :
    (Host.connect h ff sh).1 = h := by
  cases sh
  · rw [connect_fail_silent h ff args hs hc ho]
  · cases args with
    | nil => rw [connect_fail_empty h ff hs hc ho]
    | cons reason rest => rw [connect_fail_report h ff reason rest hs hc ho]

/-! ### Claims -/

/-- C1 (amended): with no run-state assigned, `connect`, `disconnect`,
`run_shell_command`, `put_file`, `get_file` each fail with the
`_check_state` precondition `TypeError` and have no side effect (host
unchanged, empty trace), and a fact read on a registered identifier fails
the same way via the `connect` inside the facade; fact create and delete,
however, check only the host binding and delegate to the facts module with
the absent run-state passed along unchecked. -/
theorem C1_no_state_precondition (h : Host) (facts : FactsModule) (key : String)
    (data fargs : Value) (args : List Value) (kwargs : List (String × Value))
    (ff : Option String) (sh : Bool)
    (hs : h.state.truthy = false) (hk : facts.is_fact key = true) :
    Host.connect h ff sh = (h, Except.error (PyErr.typeError checkStateMsg), [])
    ∧ Host.disconnect h = (h, Except.error (PyErr.typeError checkStateMsg), [])
    ∧ Host.run_shell_command h args kwargs =
        (h, Except.error (PyErr.typeError checkStateMsg), [])
    ∧ Host.put_file h args kwargs =
        (h, Except.error (PyErr.typeError checkStateMsg), [])
    ∧ Host.get_file h args kwargs =
        (h, Except.error (PyErr.typeError checkStateMsg), [])
    ∧ HostFacts.getattr facts ⟨some h⟩ key =
        (⟨some h⟩, Except.error (PyErr.typeError checkStateMsg), [])
    ∧ HostFacts.create facts ⟨some h⟩ key data fargs =
        (⟨some h⟩, Except.ok (facts.create_host_fact h.state h.name key data fargs),
         [Event.factsCreate h.state h.name key data fargs])
    ∧ HostFacts.delete facts ⟨some h⟩ key fargs =
        (⟨some h⟩, Except.ok (facts.delete_host_fact h.state h.name key fargs),
         [Event.factsDelete h.state h.name key fargs]) := by
  refine ⟨connect_no_state h ff sh hs, ?_, ?_, ?_, ?_, ?_, ?_, ?_⟩
  · simp [Host.disconnect, hs]
  · simp [Host.run_shell_command, hs]
  · simp [Host.put_file, hs]
  · simp [Host.get_file, hs]
  · simp [HostFacts.getattr, hk, connect_no_state h (some key) true hs]
  · simp [HostFacts.create]
  · simp [HostFacts.delete]

/-- C1 witness: at the concrete state-less host `hostNoState`, `connect`
raises the precondition `TypeError` with no side effect. -/
theorem C1_no_state_precondition_witness :
    hostNoState.state.truthy = false
    ∧ factsStub.is_fact "os_version" = true
    ∧ Host.connect hostNoState none true =
        (hostNoState, Except.error (PyErr.typeError checkStateMsg), []) :=
  ⟨rfl, rfl,
   (C1_no_state_precondition hostNoState factsStub "os_version" Value.vNone
     Value.vNone [] [] none true rfl rfl).1⟩

/-- C1 counterexample: on a host with no run-state, `HostFacts._create`
does not fail with a precondition error — it succeeds and delegates to
`create_host_fact` with the absent state, a side effect.  This refutes the
claim that every fact-resolution operation fails with a precondition error
and has no side effect when no run-state is assigned. -/
theorem C1_counterexample :
    hostNoState.state.truthy = false
    ∧ (HostFacts.create factsStub ⟨some hostNoState⟩ "myfact"
         Value.vNone Value.vNone).2.1 = Except.ok (Value.vStr "created")
    ∧ (HostFacts.create factsStub ⟨some hostNoState⟩ "myfact"
         Value.vNone Value.vNone).2.2 =
        [Event.factsCreate Value.vNone "web0" "myfact" Value.vNone Value.vNone] :=
  ⟨rfl, rfl, rfl⟩

/-- C2: on a host that is already successfully connected (truthy stored
handle), a repeat `connect` returns the identical handle, makes no new
connector attempt, and emits no further log line; across the first
(successful) call and the repeat there is exactly one success log line. -/
theorem C2_connect_idempotent (h : Host) (v : Value)
    (ff1 ff2 : Option String) (sh1 sh2 : Bool)
    (hs : h.state.truthy = true) (hc : h.connection.truthy = false)
    (hv : v.truthy = true)
    (ho : h.executor.connect h.state h.name = ConnectOutcome.success v) :
    (Host.connect h ff1 sh1).2.1 = Except.ok v
    ∧ Host.connect (Host.connect h ff1 sh1).1 ff2 sh2 =
        ((Host.connect h ff1 sh1).1, Except.ok v, [])
    ∧ ((Host.connect h ff1 sh1).2.2 ++
        (Host.connect (Host.connect h ff1 sh1).1 ff2 sh2).2.2).countP
        Event.isLogInfo = 1
    ∧ ((Host.connect (Host.connect h ff1 sh1).1 ff2 sh2).2.2).countP
        Event.isExecConnect = 0 := by
  have e1 := connect_success h v ff1 sh1 hs hc ho
  have e2 : Host.connect { h with connection := v } ff2 sh2 =
      ({ h with connection := v }, Except.ok v, []) := by
    have e := connect_already { h with connection := v } ff2 sh2 hs hv
    simpa using e
  rw [e1]
  simp [e2, List.countP_cons, List.countP_nil, Event.isLogInfo, Event.isExecConnect]

/-- C2 witness: concrete scenario A — host `web1`, connector returning
handle `"h1"`; the first `connect` returns `"h1"`. -/
theorem C2_connect_idempotent_witness :
    hostWeb1.state.truthy = true
    ∧ hostWeb1.connection.truthy = false
    ∧ (Value.vStr "h1").truthy = true
    ∧ hostWeb1.executor.connect hostWeb1.state hostWeb1.name =
        ConnectOutcome.success (Value.vStr "h1")
    ∧ (Host.connect hostWeb1 none true).2.1 = Except.ok (Value.vStr "h1") :=
  ⟨rfl, rfl, rfl, rfl,
   (C2_connect_idempotent hostWeb1 (Value.vStr "h1") none none true true
     rfl rfl rfl rfl).1⟩

/-- C3: with run-state bound, no existing connection (`None`), and a
connector raising a `ConnectError` carrying a reason, `connect` does not
raise and returns `None`; with error reporting it emits exactly one
host-prefixed red error line containing the reason, and with reporting off
it emits nothing. -/
theorem C3_connect_failure (h : Host) (reason : String) (rest : List String)
    (ff : Option String)
    (hs : h.state.truthy = true) (hc : h.connection = Value.vNone)
    (ho : h.executor.connect h.state h.name = ConnectOutcome.failure (reason :: rest)) :
    Host.connect h ff true =
      (h, Except.ok Value.vNone,
       [Event.execConnect h.state h.name,
        Event.logError (connectErrMsg h.name reason)])
    ∧ Host.connect h ff false =
        (h, Except.ok Value.vNone, [Event.execConnect h.state h.name]) := by
  have hct : h.connection.truthy = false := by rw [hc]; rfl
  constructor
  · have e := connect_fail_report h ff reason rest hs hct ho
    rw [e, hc]
  · have e := connect_fail_silent h ff (reason :: rest) hs hct ho
    rw [e, hc]

/-- C3 witness: concrete scenario B — host `web2`, connector always failing
with reason `"timeout"`; `connect` returns `None` and logs the prefixed
`"timeout"` line. -/
theorem C3_connect_failure_witness :
    hostWeb2.state.truthy = true
    ∧ hostWeb2.connection = Value.vNone
    ∧ hostWeb2.executor.connect hostWeb2.state hostWeb2.name =
        ConnectOutcome.failure ["timeout"]
    ∧ Host.connect hostWeb2 none true =
        (hostWeb2, Except.ok Value.vNone,
         [Event.execConnect (Value.vStr "S") "web2",
          Event.logError (connectErrMsg "web2" "timeout")]) :=
  ⟨rfl, rfl, rfl, (C3_connect_failure hostWeb2 "timeout" [] none rfl rfl rfl).1⟩

/-- C4: a fact read of an identifier not in the registry fails with the
unknown-fact `AttributeError` before any connector call and with no log
line, for every host (any connectivity), and that error is a different
error class from the connection-failure `PyinfraError`. -/
theorem C4_unknown_fact (facts : FactsModule) (h : Host) (key : String)
    (hk : facts.is_fact key = false) :
    HostFacts.getattr facts ⟨some h⟩ key =
      (⟨some h⟩,
       Except.error (PyErr.attributeError ("No such fact: " ++ key)), [])
    ∧ ∀ msg, PyErr.attributeError ("No such fact: " ++ key) ≠
        PyErr.pyinfraError msg := by
  constructor
  · simp [HostFacts.getattr, hk]
  · intro msg hcontra
    injection hcontra

/-- C4 witness: concrete scenario D — `"nonexistent_fact"` is unregistered,
and reading it on the unreachable host `web2` fails with the
`AttributeError` with no connector call and no log line. -/
theorem C4_unknown_fact_witness :
    factsStub.is_fact "nonexistent_fact" = false
    ∧ HostFacts.getattr factsStub ⟨some hostWeb2⟩ "nonexistent_fact" =
        (⟨some hostWeb2⟩,
         Except.error (PyErr.attributeError ("No such fact: " ++ "nonexistent_fact")),
         []) :=
  ⟨rfl, (C4_unknown_fact factsStub hostWeb2 "nonexistent_fact" rfl).1⟩

/-- C5: a registered fact read first runs `connect(for_fact=key)` with
error reporting on; if the connector fails (reported error line shows the
reporting flag), or returns a falsy handle, the read raises the fatal
`PyinfraError` and never reaches `get_host_fact`; only with a truthy handle
does it delegate to `get_host_fact(state, host, key)` and return that
result. -/
theorem C5_fact_read (facts : FactsModule) (h : Host) (key : String)
    (hs : h.state.truthy = true) (hc : h.connection = Value.vNone)
    (hk : facts.is_fact key = true) :
    (∀ reason rest,
      h.executor.connect h.state h.name = ConnectOutcome.failure (reason :: rest) →
      HostFacts.getattr facts ⟨some h⟩ key =
        (⟨some h⟩,
         Except.error (PyErr.pyinfraError
           ("Could not connect to " ++ h.name ++ " for fact " ++ key ++ "!")),
         [Event.execConnect h.state h.name,
          Event.logError (connectErrMsg h.name reason)]))
    ∧ (∀ v, v.truthy = true →
      h.executor.connect h.state h.name = ConnectOutcome.success v →
      HostFacts.getattr facts ⟨some h⟩ key =
        (⟨some { h with connection := v }⟩,
         Except.ok (facts.get_host_fact h.state h.name key),
         [Event.execConnect h.state h.name,
          Event.logInfo (successMsg h.name (some key)),
          Event.factsGet h.state h.name key]))
    ∧ (∀ v, v.truthy = false →
      h.executor.connect h.state h.name = ConnectOutcome.success v →
      HostFacts.getattr facts ⟨some h⟩ key =
        (⟨some { h with connection := v }⟩,
         Except.error (PyErr.pyinfraError
           ("Could not connect to " ++ h.name ++ " for fact " ++ key ++ "!")),
         [Event.execConnect h.state h.name,
          Event.logInfo (successMsg h.name (some key))])) := by
  have hct : h.connection.truthy = false := by rw [hc]; rfl
  refine ⟨?_, ?_, ?_⟩
  · intro reason rest ho
    have e := connect_fail_report h (some key) reason rest hs hct ho
    simp [HostFacts.getattr, hk, e, hc, Value.truthy]
  · intro v hv ho
    have e := connect_success h v (some key) true hs hct ho
    simp [HostFacts.getattr, hk, e, hv]
  · intro v hv ho
    have e := connect_success h v (some key) true hs hct ho
    simp [HostFacts.getattr, hk, e, hv]

/-- C5 witness: concrete scenario C — registered fact `"os_version"` on
host `web1` whose connector succeeds with a truthy handle: the read
returns the registry fetch result `"linux-6.1"`. -/
theorem C5_fact_read_witness :
    hostWeb1.state.truthy = true
    ∧ hostWeb1.connection = Value.vNone
    ∧ factsStub.is_fact "os_version" = true
    ∧ (HostFacts.getattr factsStub ⟨some hostWeb1⟩ "os_version").2.1 =
        Except.ok (Value.vStr "linux-6.1") :=
  ⟨rfl, rfl, rfl, by
    have e := ((C5_fact_read factsStub hostWeb1 "os_version" rfl rfl rfl).2.1)
      (Value.vStr "h1") rfl rfl
    rw [e]
    rfl⟩

/-- C6 counterexample: `hostConnected` holds live handle `"h1"`; after
`disconnect()` the `connection` field still holds that truthy handle — the
host is not in the Disconnected state, refuting the claimed
Connected→Disconnected transition on explicit disconnect. -/
theorem C6_counterexample :
    hostConnected.connection.truthy = true
    ∧ (Host.disconnect hostConnected).2.1 = Except.ok Value.vNone
    ∧ (Host.disconnect hostConnected).1.connection = Value.vStr "h1"
    ∧ ((Host.disconnect hostConnected).1.connection).truthy = true :=
  ⟨rfl, rfl, rfl, rfl⟩

/-- C6 (amended): at this layer the `connection` field is mutated only by
`connect`, and only from a falsy value to the handle the connector returned;
`disconnect` delegates teardown but leaves the host record — in particular
the `connection` field — completely unchanged, so the stored handle
survives an explicit disconnect. -/
theorem C6_connection_transitions (h : Host) (ff : Option String) (sh : Bool) :
    (Host.disconnect h).1 = h
    ∧ ((Host.connect h ff sh).1.connection = h.connection
       ∨ ∃ v, h.executor.connect h.state h.name = ConnectOutcome.success v
           ∧ h.connection.truthy = false
           ∧ (Host.connect h ff sh).1.connection = v) := by
  constructor
  · unfold Host.disconnect
    cases hs : h.state.truthy
    · simp
    · cases hd : h.executor.disconnect <;> simp
  · cases hs : h.state.truthy
    · left
      rw [connect_no_state h ff sh hs]
    · cases hc : h.connection.truthy
      · cases ho : h.executor.connect h.state h.name with
        | success v =>
            right
            refine ⟨v, rfl, rfl, ?_⟩
            rw [connect_success h v ff sh hs hc ho]
        | failure args =>
            left
            rw [connect_fail_host_eq h ff sh args hs hc ho]
      · left
        rw [connect_already h ff sh hs hc]

/-- C7: with run-state bound, `disconnect` delegates to the executor's
optional `disconnect(state, host)` exactly when one is present, is a no-op
returning `None` otherwise, and never raises — in particular it is legal on
a never-connected host, the `connection` field playing no role at all. -/
theorem C7_disconnect_optional (h : Host) (hs : h.state.truthy = true) :
    (h.executor.disconnect = none →
      Host.disconnect h = (h, Except.ok Value.vNone, []))
    ∧ (∀ f, h.executor.disconnect = some f →
      Host.disconnect h =
        (h, Except.ok (f h.state h.name), [Event.execDisconnect h.state h.name])) := by
  constructor
  · intro hd
    simp [Host.disconnect, hs, hd]
  · intro f hd
    simp [Host.disconnect, hs, hd]

/-- C7 witness: `hostWeb2` was never connected and its executor has no
disconnect capability; `disconnect()` is a legal no-op returning `None`. -/
theorem C7_disconnect_optional_witness :
    hostWeb2.state.truthy = true
    ∧ hostWeb2.executor.disconnect = none
    ∧ Host.disconnect hostWeb2 = (hostWeb2, Except.ok Value.vNone, []) :=
  ⟨rfl, rfl, (C7_disconnect_optional hostWeb2 rfl).1 rfl⟩

/-- C8: with run-state bound, `run_shell_command`, `put_file` and
`get_file` each delegate verbatim to the same-named executor operation,
handing it `(state, host, *args, **kwargs)` unchanged and returning its
result unchanged, with no connection check or connect attempt of their own
(the `connection` field is arbitrary and untouched). -/
theorem C8_dispatch_verbatim (h : Host) (args : List Value)
    (kwargs : List (String × Value)) (hs : h.state.truthy = true) :
    Host.run_shell_command h args kwargs =
      (h, Except.ok (h.executor.run_shell_command h.state h.name args kwargs),
       [Event.execRun h.state h.name args kwargs])
    ∧ Host.put_file h args kwargs =
        (h, Except.ok (h.executor.put_file h.state h.name args kwargs),
         [Event.execPut h.state h.name args kwargs])
    ∧ Host.get_file h args kwargs =
        (h, Except.ok (h.executor.get_file h.state h.name args kwargs),
         [Event.execGet h.state h.name args kwargs]) := by
  refine ⟨?_, ?_, ?_⟩
  · simp [Host.run_shell_command, hs]
  · simp [Host.put_file, hs]
  · simp [Host.get_file, hs]

/-- C8 witness: on `hostWeb1` (never connected), `run_shell_command` returns
the executor's result with exactly the delegation event. -/
theorem C8_dispatch_verbatim_witness :
    hostWeb1.state.truthy = true
    ∧ Host.run_shell_command hostWeb1 [Value.vStr "uptime"] [("sudo", Value.vBool true)] =
        (hostWeb1, Except.ok (Value.vStr "ran"),
         [Event.execRun (Value.vStr "S") "web1" [Value.vStr "uptime"]
           [("sudo", Value.vBool true)]]) :=
  ⟨rfl,
   (C8_dispatch_verbatim hostWeb1 [Value.vStr "uptime"]
     [("sudo", Value.vBool true)] rfl).1⟩

/-- C9: if the connector raises a `ConnectError` whose args tuple is empty
while error reporting is on, the reporting branch itself fails with an
`IndexError` from `e.args[0]`; with reporting off the same failure is
swallowed and `connect` returns the old falsy connection — so the
catch-log-and-return-none behaviour is total only when every
`ConnectError` carries a reason. -/
theorem C9_empty_args_indexerror (h : Host) (ff : Option String)
    (hs : h.state.truthy = true) (hc : h.connection.truthy = false)
    (ho : h.executor.connect h.state h.name = ConnectOutcome.failure []) :
    Host.connect h ff true =
      (h, Except.error PyErr.indexError, [Event.execConnect h.state h.name])
    ∧ Host.connect h ff false =
        (h, Except.ok h.connection, [Event.execConnect h.state h.name]) :=
  ⟨connect_fail_empty h ff hs hc ho, connect_fail_silent h ff [] hs hc ho⟩

/-- C9 witness: `hostWeb4`'s connector raises an argless `ConnectError`;
`connect` with reporting on fails with `IndexError`. -/
theorem C9_empty_args_indexerror_witness :
    hostWeb4.state.truthy = true
    ∧ hostWeb4.connection.truthy = false
    ∧ hostWeb4.executor.connect hostWeb4.state hostWeb4.name =
        ConnectOutcome.failure []
    ∧ Host.connect hostWeb4 none true =
        (hostWeb4, Except.error PyErr.indexError,
         [Event.execConnect (Value.vStr "S") "web4"]) :=
  ⟨rfl, rfl, rfl, (C9_empty_args_indexerror hostWeb4 none rfl rfl rfl).1⟩

/-- C10: `connect` attempts a connector connection exactly when the stored
handle is falsy.  A truthy stored handle is returned unchanged with no
connector call; but if the connector returns a falsy handle without
raising, `connect` still logs the success line and returns that falsy
handle, and a repeat `connect` on the resulting host attempts the
connector and logs all over again — the single-attempt guarantee is gated
on truthiness, not on a successful prior call. -/
theorem C10_truthiness_gate (h : Host) (ff ff2 : Option String) (sh sh2 : Bool)
    (hs : h.state.truthy = true) :
    (h.connection.truthy = true →
      Host.connect h ff sh = (h, Except.ok h.connection, []))
    ∧ (∀ v, h.connection.truthy = false → v.truthy = false →
      h.executor.connect h.state h.name = ConnectOutcome.success v →
      Host.connect h ff sh =
        ({ h with connection := v }, Except.ok v,
         [Event.execConnect h.state h.name,
          Event.logInfo (successMsg h.name ff)])
      ∧ Host.connect { h with connection := v } ff2 sh2 =
          ({ h with connection := v }, Except.ok v,
           [Event.execConnect h.state h.name,
            Event.logInfo (successMsg h.name ff2)])) := by
  constructor
  · intro hc
    exact connect_already h ff sh hs hc
  · intro v hc hv ho
    constructor
    · exact connect_success h v ff sh hs hc ho
    · have e := connect_success { h with connection := v } v ff2 sh2 hs hv ho
      simpa using e

/-- C10 witness: `hostWeb5`'s connector returns `None` without raising;
`connect` still returns `Except.ok None` (and, per the theorem applied
here, logs a success line and re-attempts on the next call). -/
theorem C10_truthiness_gate_witness :
    hostWeb5.state.truthy = true
    ∧ hostWeb5.connection.truthy = false
    ∧ Value.vNone.truthy = false
    ∧ hostWeb5.executor.connect hostWeb5.state hostWeb5.name =
        ConnectOutcome.success Value.vNone
    ∧ (Host.connect hostWeb5 none true).2.1 = Except.ok Value.vNone :=
  ⟨rfl, rfl, rfl, rfl, by
    have e := ((C10_truthiness_gate hostWeb5 none none true true rfl).2
      Value.vNone rfl rfl rfl).1
    rw [e]⟩
